import Mathlib

/-!
# Verification of the power-monitoring core (X1200 UPS HAT)

Shallow embedding of the battery-monitoring core of the repository:
the calibration/correction layer and external-power stabilization
(`dashboard_server.py`), the battery-presence classifier
(`x1200_common.py`), the multi-method runtime estimator and display
formatting (`runtime_estimator.py`), and the critical-event detector
and its main polling loop (`x1200_enhanced_monitor.py`).

Python floats are modelled as exact rationals (ℚ); all the constants
involved (1.327, 0.1, 2.5, 4.19, …) are exactly representable and the
claims under study are about the algorithmic branch structure, not
floating-point rounding.  Fallible sensor reads are modelled as
`Option` values (`none` = the Python `None` returned on a failed
register read).
-/

namespace PowerMonitoring

/-- Python `int()` applied to a rational: truncation toward zero. -/
def pyInt (q : ℚ) : ℤ := if 0 ≤ q then ⌊q⌋ else ⌈q⌉

/-- Python `%` on floats (sign of the result follows the divisor;
we only use positive divisors): `a - b * floor (a / b)`. -/
def pyMod (a b : ℚ) : ℚ := a - b * (⌊a / b⌋ : ℤ)

/-! ## Calibration / correction layer (`dashboard_server.py`)

`battery_percentage = min(100.0, raw_percentage * 1.327)` appears in
`X1200PowerMonitor.read_power_data` and again in
`PowerDataAPI.get_x1200_safe_data`. -/

/-- Calibration correction from `dashboard_server.py`:
`min(100.0, raw_percentage * 1.327)`. -/
def correct_percentage (raw : ℚ) : ℚ := min 100 (raw * 1.327)

/-! ## External-power stabilization (`dashboard_server.py`,
`PowerDataAPI.get_x1200_safe_data`)

```
if external_power_present and battery_percentage is not None:
    if hasattr(self, '_last_stable_battery') and self._last_stable_battery is not None:
        if battery_percentage > self._last_stable_battery + 2:
            stable_battery_percentage = self._last_stable_battery + 1
        elif battery_percentage < self._last_stable_battery - 1:
            stable_battery_percentage = self._last_stable_battery
        else:
            stable_battery_percentage = battery_percentage
    else:
        stable_battery_percentage = battery_percentage
    self._last_stable_battery = stable_battery_percentage
else:
    stable_battery_percentage = battery_percentage
    self._last_stable_battery = None
```

The instance attribute `_last_stable_battery` is made explicit: the
function takes the previous state and returns
(stable percentage shown, new `_last_stable_battery`). -/

/-- External-power stabilization step.  Arguments: external power
present, current (corrected) battery percentage reading (`none` when
unavailable), previous `_last_stable_battery`.  Returns the
`stable_battery_percentage` and the updated `_last_stable_battery`. -/
def stabilize : Bool → Option ℚ → Option ℚ → Option ℚ × Option ℚ
  | true, some battery, some last =>
      let stable : ℚ :=
        if battery > last + 2 then last + 1
        else if battery < last - 1 then last
        else battery
      (some stable, some stable)
  | true, some battery, none => (some battery, some battery)
  | _, battery, _ => (battery, none)

/-! ## Battery presence classifier (`x1200_common.py`,
`X1200Monitor.detect_battery` / `read_word_swapped`)

`read_word_swapped` returns `None` when the monitor is not connected
or the SMBus read raises; otherwise the byte-swapped register word.
`detect_battery` reads the SOC and VCELL registers and classifies:

```
if soc is not None and vcell is not None:
    percentage = soc / 256.0
    voltage = (vcell >> 4) * 1.25 / 1000.0
    if voltage >= 4.19 and voltage <= 4.21 and 36 <= percentage <= 43:
        self.has_battery = False
    elif percentage < 0.1 or voltage < 2.5:
        self.has_battery = False
    else:
        self.has_battery = True
else:
    self.has_battery = False
```
-/

/-- The pure classification on derived (voltage, percentage), exactly
the branch chain of `detect_battery`. -/
def classify (voltage percentage : ℚ) : Bool :=
  if 4.19 ≤ voltage ∧ voltage ≤ 4.21 ∧ 36 ≤ percentage ∧ percentage ≤ 43 then
    false
  else if percentage < 0.1 ∨ voltage < 2.5 then
    false
  else
    true

/-- `detect_battery` on the two (byte-swapped) register reads, each
`none` when `read_word_swapped` failed.  `vcell >> 4` is Nat shift,
`soc / 256.0` and `(vcell >> 4) * 1.25 / 1000.0` exact division. -/
def detect_battery (soc vcell : Option ℕ) : Bool :=
  match soc, vcell with
  | some s, some v =>
      let percentage : ℚ := (s : ℚ) / 256
      let voltage : ℚ := ((v >>> 4 : ℕ) : ℚ) * 1.25 / 1000
      classify voltage percentage
  | _, _ => false

/-! ## Multi-method runtime estimator (`runtime_estimator.py`,
`X1200RuntimeEstimator`)

Constants from `__init__`: `battery_capacity_wh = 25.0`,
`min_battery_voltage = 3.0`, `safe_discharge_limit = 0.1`.

`get_battery_data` returns `{'voltage': …, 'percentage': …}` or
`None`; it is a fresh hardware read each time it is called.
`get_runtime_estimate` calls it once up front, and
`calculate_historical_runtime` calls it AGAIN while computing the
historical estimate, so one estimation cycle performs two distinct
hardware reads.  The embedding makes the two reads explicit arguments
(`read1` for the initial call, `read2` for the read performed inside
`calculate_historical_runtime`); a run of the real code corresponds
to instantiating them with whatever the sensor returned at those two
moments. -/

/-- One `get_battery_data` result (the non-`None` case). -/
structure BatteryData where
  voltage : ℚ
  percentage : ℚ
deriving DecidableEq

def battery_capacity_wh : ℚ := 25
def min_battery_voltage : ℚ := 3
def safe_discharge_limit : ℚ := 0.1

/-- The `estimates` dict of `calculate_runtime_estimates`: one
optional entry per method (absent = key not inserted). -/
structure Estimates where
  percentage_based : Option ℚ
  voltage_based : Option ℚ
  power_based : Option ℚ
  historical : Option ℚ
deriving DecidableEq

/-- The drain-rate collection loop of `calculate_historical_runtime`:
for consecutive rows, when both percentages are positive and the drop
`prev - curr` is positive, it contributes to the average. -/
def drain_rates : List ℚ → List ℚ
  | prev :: curr :: rest =>
      (if prev > 0 ∧ curr > 0 ∧ prev - curr > 0 then [prev - curr] else [])
        ++ drain_rates (curr :: rest)
  | _ => []

/-- `calculate_historical_runtime`: `rows` are the `Battery %` values
of the CSV log in file order (each row assumed parseable; a row whose
parse raises is simply skipped by the Python loop, which corresponds
to it not appearing in `rows`).  `read2` is the result of the
`self.get_battery_data()` call this function performs itself. -/
def calculate_historical_runtime (rows : List ℚ) (read2 : Option BatteryData) :
    Option ℚ :=
  let recent := if rows.length ≥ 20 then rows.drop (rows.length - 20) else rows
  if recent.length < 10 then none
  else
    let drains := drain_rates recent
    if drains ≠ [] then
      let avg_drain_per_5s := drains.sum / (drains.length : ℚ)
      if avg_drain_per_5s > 0 then
        match read2 with
        | some current_battery =>
            let usable_percentage :=
              current_battery.percentage - safe_discharge_limit * 100
            if usable_percentage > 0 then
              some (usable_percentage / avg_drain_per_5s * 5 / 3600)
            else none
        | none => none
      else none
    else none

/-- `calculate_runtime_estimates(battery_data, power_data)`.
`watts` is `power_data['estimated_watts']` (the Python `power_data`
dict is always truthy — `get_system_power_consumption` returns a
default on error — so only the `current_watts > 0` guard matters).
The historical entry is inserted under `if historical_runtime:`,
i.e. only when the value is non-`None` and nonzero. -/
def calculate_runtime_estimates (battery : BatteryData) (watts : ℚ)
    (rows : List ℚ) (read2 : Option BatteryData) : Estimates :=
  let percentage_based :=
    if battery.percentage > safe_discharge_limit * 100 then
      some ((battery.percentage - safe_discharge_limit * 100) / 100 * 2.5)
    else none
  let voltage_based :=
    if battery.voltage > min_battery_voltage then
      let voltage_percentage :=
        if battery.voltage ≥ 3.7 then
          min 100 ((battery.voltage - 3.0) / 1.2 * 100)
        else
          max 0 ((battery.voltage - 3.0) / 0.7 * 20)
      if voltage_percentage > safe_discharge_limit * 100 then
        some ((voltage_percentage - safe_discharge_limit * 100) / 100 * 2.5)
      else none
    else none
  let power_based :=
    if battery_capacity_wh > 0 ∧ watts > 0 then
      let usable_capacity :=
        battery_capacity_wh * (battery.percentage / 100 - safe_discharge_limit)
      if usable_capacity > 0 then some (usable_capacity / watts) else none
    else none
  let historical :=
    match calculate_historical_runtime rows read2 with
    | some h => if h ≠ 0 then some h else none
    | none => none
  ⟨percentage_based, voltage_based, power_based, historical⟩

/-- One iteration of the fusion loop of `get_runtime_estimate`: an
entry contributes `(estimate * weight, weight)` to the running
`(weighted_sum, total_weight)` pair when it is present, truthy and
`> 0` (`if estimate and estimate > 0:`), else `(0, 0)`. -/
def fuse_term (e : Option ℚ) (weight : ℚ) : ℚ × ℚ :=
  match e with
  | some v => if v ≠ 0 ∧ v > 0 then (v * weight, weight) else (0, 0)
  | none => (0, 0)

/-- The confidence-weighted fusion loop of `get_runtime_estimate`:
weights 0.2 / 0.3 / 0.3 / 0.5, a method contributes when its entry is
present, truthy and `> 0`; `final_estimate = weighted_sum /
total_weight` when `total_weight > 0`, else `None`. -/
def fuse (estimates : Estimates) : Option ℚ :=
  let t1 := fuse_term estimates.percentage_based 0.2
  let t2 := fuse_term estimates.voltage_based 0.3
  let t3 := fuse_term estimates.power_based 0.3
  let t4 := fuse_term estimates.historical 0.5
  let weighted_sum := t1.1 + t2.1 + t3.1 + t4.1
  let total_weight := t1.2 + t2.2 + t3.2 + t4.2
  if total_weight > 0 then some (weighted_sum / total_weight) else none

/-- `get_runtime_estimate`: `read1` is the up-front
`get_battery_data()` call (on `None` the whole function returns
`None`), `read2` the one performed inside
`calculate_historical_runtime`.  Returns the individual estimate set
and the fused `final_estimate_hours`. -/
def get_runtime_estimate (read1 : Option BatteryData) (watts : ℚ)
    (rows : List ℚ) (read2 : Option BatteryData) :
    Option (Estimates × Option ℚ) :=
  match read1 with
  | none => none
  | some battery =>
      let estimates := calculate_runtime_estimates battery watts rows read2
      some (estimates, fuse estimates)

/-! ## Display formatting (`runtime_estimator.py`,
`format_runtime_display`) -/

/-- `format_runtime_display(runtime_hours)`; the argument is `none`
for Python `None`, and `not runtime_hours` is float truthiness
(true exactly on 0.0). -/
def format_runtime_display : Option ℚ → String
  | none => "Unable to estimate"
  | some runtime_hours =>
    if runtime_hours = 0 ∨ runtime_hours ≤ 0 then "Unable to estimate"
    else if runtime_hours < 1 then
      toString (pyInt (runtime_hours * 60)) ++ " minutes"
    else if runtime_hours < 24 then
      let hours := pyInt runtime_hours
      let minutes := pyInt ((runtime_hours - (hours : ℚ)) * 60)
      if minutes > 0 then
        toString hours ++ "h " ++ toString minutes ++ "m"
      else
        toString hours ++ " hours"
    else
      let days := pyInt (runtime_hours / 24)
      let remaining_hours := pyInt (pyMod runtime_hours 24)
      toString days ++ " days " ++ toString remaining_hours ++ " hours"

/-! ## Critical-event detector (`x1200_enhanced_monitor.py`,
`X1200EnhancedMonitor.detect_critical_events` and `main`) -/

/-- The fields of the `get_comprehensive_data` dict that
`detect_critical_events` inspects; each may be `None`. -/
structure SampleData where
  battery_voltage : Option ℚ
  battery_percentage : Option ℚ
  is_charging : Option Bool
  has_external_power : Option Bool
  estimated_current : Option ℚ
deriving DecidableEq

/-- The event strings appended by `detect_critical_events`
(`HIGH_DISCHARGE_RATE_{…}mA` carries the magnitude). -/
inductive Event where
  | powerLossDetected
  | chargingStarted
  | chargingStopped
  | externalPowerConnected
  | externalPowerLost
  | criticalBatteryLevel
  | lowBatteryWarning
  | criticalLowVoltage
  | overVoltageWarning
  | highDischargeRate (ma : ℚ)
deriving DecidableEq

/-- Python truthiness of an optional boolean field
(`None` and `False` are falsy). -/
def py_truthy (o : Option Bool) : Bool :=
  match o with
  | some b => b
  | none => false

/-- `detect_critical_events` block 1: `if data['has_external_power']
== False: events.append("POWER_LOSS_DETECTED")`.  Note `None ==
False` is `False` in Python, hence `= some false`. -/
def power_loss_events (data : SampleData) : List Event :=
  if data.has_external_power = some false then [Event.powerLossDetected] else []

/-- `detect_critical_events` charging-transition block (inside
`len(history) > 0`, with `prev = history[-1]`). -/
def charging_transition_events (data prev : SampleData) : List Event :=
  if prev.is_charging ≠ data.is_charging then
    if py_truthy data.is_charging then [Event.chargingStarted]
    else [Event.chargingStopped]
  else []

/-- `detect_critical_events` external-power-transition block (inside
`len(history) > 0`, with `prev = history[-1]`). -/
def power_transition_events (data prev : SampleData) : List Event :=
  if prev.has_external_power ≠ data.has_external_power then
    if py_truthy data.has_external_power then [Event.externalPowerConnected]
    else [Event.externalPowerLost]
  else []

/-- The whole `if len(history) > 0:` block of
`detect_critical_events`: both transition comparisons against
`history[-1]`, skipped when the history is empty. -/
def transition_events (data : SampleData) (history : List SampleData) :
    List Event :=
  match history.getLast? with
  | some prev =>
      charging_transition_events data prev ++ power_transition_events data prev
  | none => []

/-- `detect_critical_events` battery-level block (level check,
skipped when the percentage is `None`). -/
def battery_level_events (data : SampleData) : List Event :=
  match data.battery_percentage with
  | some p =>
      if p < 10 then [Event.criticalBatteryLevel]
      else if p < 20 then [Event.lowBatteryWarning]
      else []
  | none => []

/-- `detect_critical_events` voltage block (level check, skipped when
the voltage is `None`). -/
def voltage_level_events (data : SampleData) : List Event :=
  match data.battery_voltage with
  | some v =>
      if v < 3 then [Event.criticalLowVoltage]
      else if v > 4.3 then [Event.overVoltageWarning]
      else []
  | none => []

/-- `detect_critical_events` discharge-rate block:
`HIGH_DISCHARGE_RATE_{abs(current):.0f}mA` when the estimated current
is below -2000 mA. -/
def discharge_rate_events (data : SampleData) : List Event :=
  match data.estimated_current with
  | some c => if c < -2000 then [Event.highDischargeRate |c|] else []
  | none => []

/-- `detect_critical_events(data, history)`: the five blocks above in
the source's append order. -/
def detect_critical_events (data : SampleData) (history : List SampleData) :
    List Event :=
  power_loss_events data
    ++ transition_events data history
    ++ battery_level_events data
    ++ voltage_level_events data
    ++ discharge_rate_events data

/-- The history update of the `main` polling loop, which runs BEFORE
`detect_critical_events` is called on the same `data`:
`history.append(data); if len(history) > 50: history.pop(0)`. -/
def push_history (history : List SampleData) (data : SampleData) :
    List SampleData :=
  let h := history ++ [data]
  if h.length > 50 then h.tail else h

/-! ## General lemmas about the embedding -/

/-- Python `int()` agrees with the floor on nonnegative arguments. -/
lemma pyInt_eq_floor {q : ℚ} (h : 0 ≤ q) : pyInt q = ⌊q⌋ := by
  unfold pyInt
  rw [if_pos h]

/-- A fusion-loop entry that is absent or nonpositive contributes
nothing to the weighted sum or the total weight. -/
lemma fuse_term_of_nonpos {o : Option ℚ} (weight : ℚ)
    (h : ∀ e, o = some e → e ≤ 0) : fuse_term o weight = (0, 0) := by
  cases o with
  | none => rfl
  | some v =>
      have hv := h v rfl
      simp only [fuse_term]
      rw [if_neg]
      rintro ⟨-, hpos⟩
      linarith

/-- The power-loss level alarm is the only event its block emits. -/
lemma mem_power_loss_events {e : Event} {data : SampleData}
    (h : e ∈ power_loss_events data) : e = Event.powerLossDetected := by
  unfold power_loss_events at h
  split_ifs at h <;> simp_all

/-- The battery-level block emits only the two battery-level alarms. -/
lemma mem_battery_level_events {e : Event} {data : SampleData}
    (h : e ∈ battery_level_events data) :
    e = Event.criticalBatteryLevel ∨ e = Event.lowBatteryWarning := by
  unfold battery_level_events at h
  rcases hbp : data.battery_percentage with _ | p <;> simp only [hbp] at h
  · simp at h
  · split_ifs at h <;> simp_all

/-- The voltage block emits only the two voltage alarms. -/
lemma mem_voltage_level_events {e : Event} {data : SampleData}
    (h : e ∈ voltage_level_events data) :
    e = Event.criticalLowVoltage ∨ e = Event.overVoltageWarning := by
  unfold voltage_level_events at h
  rcases hbv : data.battery_voltage with _ | v <;> simp only [hbv] at h
  · simp at h
  · split_ifs at h <;> simp_all

/-- The discharge-rate block emits only discharge-rate alarms. -/
lemma mem_discharge_rate_events {e : Event} {data : SampleData}
    (h : e ∈ discharge_rate_events data) :
    ∃ c, e = Event.highDischargeRate c := by
  unfold discharge_rate_events at h
  rcases hec : data.estimated_current with _ | c <;> simp only [hec] at h
  · simp at h
  · split_ifs at h <;> simp_all

/-- The charging-transition block emits only the two charging events. -/
lemma mem_charging_transition_events {e : Event} {data prev : SampleData}
    (h : e ∈ charging_transition_events data prev) :
    e = Event.chargingStarted ∨ e = Event.chargingStopped := by
  unfold charging_transition_events at h
  split_ifs at h <;> simp_all

/-- The power-transition block emits only the two external-power
events. -/
lemma mem_power_transition_events {e : Event} {data prev : SampleData}
    (h : e ∈ power_transition_events data prev) :
    e = Event.externalPowerConnected ∨ e = Event.externalPowerLost := by
  unfold power_transition_events at h
  split_ifs at h <;> simp_all

/-- When the charging-transition block fires `CHARGING_STARTED`. -/
lemma chargingStarted_mem_charging_transition {data prev : SampleData} :
    Event.chargingStarted ∈ charging_transition_events data prev ↔
      prev.is_charging ≠ data.is_charging ∧ py_truthy data.is_charging = true := by
  unfold charging_transition_events
  split_ifs <;> simp_all

/-- When the charging-transition block fires `CHARGING_STOPPED`. -/
lemma chargingStopped_mem_charging_transition {data prev : SampleData} :
    Event.chargingStopped ∈ charging_transition_events data prev ↔
      prev.is_charging ≠ data.is_charging ∧ py_truthy data.is_charging = false := by
  unfold charging_transition_events
  split_ifs <;> simp_all

/-- When the power-transition block fires `EXTERNAL_POWER_CONNECTED`. -/
lemma extPowerConnected_mem_power_transition {data prev : SampleData} :
    Event.externalPowerConnected ∈ power_transition_events data prev ↔
      prev.has_external_power ≠ data.has_external_power ∧
        py_truthy data.has_external_power = true := by
  unfold power_transition_events
  split_ifs <;> simp_all

/-- When the power-transition block fires `EXTERNAL_POWER_LOST`. -/
lemma extPowerLost_mem_power_transition {data prev : SampleData} :
    Event.externalPowerLost ∈ power_transition_events data prev ↔
      prev.has_external_power ≠ data.has_external_power ∧
        py_truthy data.has_external_power = false := by
  unfold power_transition_events
  split_ifs <;> simp_all

/-- With a nonempty history, the transition block diffs against
`history[-1]`. -/
lemma transition_events_of_getLast {data prev : SampleData}
    {history : List SampleData} (hp : history.getLast? = some prev) :
    transition_events data history =
      charging_transition_events data prev ++ power_transition_events data prev := by
  unfold transition_events
  rw [hp]

/-- With an empty history, the transition block emits nothing. -/
lemma transition_events_of_nil {data : SampleData} {history : List SampleData}
    (hp : history.getLast? = none) : transition_events data history = [] := by
  unfold transition_events
  rw [hp]

/-- `CHARGING_STARTED` is emitted exactly when the previous sample's
`is_charging` differs and the current one is truthy. -/
lemma chargingStarted_mem_detect_iff (data : SampleData)
    (history : List SampleData) :
    Event.chargingStarted ∈ detect_critical_events data history ↔
      ∃ prev, history.getLast? = some prev ∧
        prev.is_charging ≠ data.is_charging ∧
          py_truthy data.is_charging = true := by
  constructor
  · intro h
    simp only [detect_critical_events, List.mem_append] at h
    rcases h with (((h | h) | h) | h) | h
    · exact absurd (mem_power_loss_events h) (by simp)
    · rcases hl : history.getLast? with _ | prev
      · rw [transition_events_of_nil hl] at h; simp at h
      · rw [transition_events_of_getLast hl] at h
        rcases List.mem_append.mp h with h | h
        · exact ⟨prev, rfl, chargingStarted_mem_charging_transition.mp h⟩
        · rcases mem_power_transition_events h with h' | h' <;> simp_all
    · rcases mem_battery_level_events h with h' | h' <;> simp_all
    · rcases mem_voltage_level_events h with h' | h' <;> simp_all
    · rcases mem_discharge_rate_events h with ⟨c, h'⟩; simp_all
  · rintro ⟨prev, hp, hne, ht⟩
    simp only [detect_critical_events, List.mem_append]
    refine Or.inl (Or.inl (Or.inl (Or.inr ?_)))
    rw [transition_events_of_getLast hp]
    exact List.mem_append.mpr
      (Or.inl (chargingStarted_mem_charging_transition.mpr ⟨hne, ht⟩))

/-- `CHARGING_STOPPED` is emitted exactly when the previous sample's
`is_charging` differs and the current one is falsy. -/
lemma chargingStopped_mem_detect_iff (data : SampleData)
    (history : List SampleData) :
    Event.chargingStopped ∈ detect_critical_events data history ↔
      ∃ prev, history.getLast? = some prev ∧
        prev.is_charging ≠ data.is_charging ∧
          py_truthy data.is_charging = false := by
  constructor
  · intro h
    simp only [detect_critical_events, List.mem_append] at h
    rcases h with (((h | h) | h) | h) | h
    · exact absurd (mem_power_loss_events h) (by simp)
    · rcases hl : history.getLast? with _ | prev
      · rw [transition_events_of_nil hl] at h; simp at h
      · rw [transition_events_of_getLast hl] at h
        rcases List.mem_append.mp h with h | h
        · exact ⟨prev, rfl, chargingStopped_mem_charging_transition.mp h⟩
        · rcases mem_power_transition_events h with h' | h' <;> simp_all
    · rcases mem_battery_level_events h with h' | h' <;> simp_all
    · rcases mem_voltage_level_events h with h' | h' <;> simp_all
    · rcases mem_discharge_rate_events h with ⟨c, h'⟩; simp_all
  · rintro ⟨prev, hp, hne, ht⟩
    simp only [detect_critical_events, List.mem_append]
    refine Or.inl (Or.inl (Or.inl (Or.inr ?_)))
    rw [transition_events_of_getLast hp]
    exact List.mem_append.mpr
      (Or.inl (chargingStopped_mem_charging_transition.mpr ⟨hne, ht⟩))

/-- `EXTERNAL_POWER_CONNECTED` is emitted exactly when the previous
sample's `has_external_power` differs and the current one is truthy. -/
lemma extPowerConnected_mem_detect_iff (data : SampleData)
    (history : List SampleData) :
    Event.externalPowerConnected ∈ detect_critical_events data history ↔
      ∃ prev, history.getLast? = some prev ∧
        prev.has_external_power ≠ data.has_external_power ∧
          py_truthy data.has_external_power = true := by
  constructor
  · intro h
    simp only [detect_critical_events, List.mem_append] at h
    rcases h with (((h | h) | h) | h) | h
    · exact absurd (mem_power_loss_events h) (by simp)
    · rcases hl : history.getLast? with _ | prev
      · rw [transition_events_of_nil hl] at h; simp at h
      · rw [transition_events_of_getLast hl] at h
        rcases List.mem_append.mp h with h | h
        · rcases mem_charging_transition_events h with h' | h' <;> simp_all
        · exact ⟨prev, rfl, extPowerConnected_mem_power_transition.mp h⟩
    · rcases mem_battery_level_events h with h' | h' <;> simp_all
    · rcases mem_voltage_level_events h with h' | h' <;> simp_all
    · rcases mem_discharge_rate_events h with ⟨c, h'⟩; simp_all
  · rintro ⟨prev, hp, hne, ht⟩
    simp only [detect_critical_events, List.mem_append]
    refine Or.inl (Or.inl (Or.inl (Or.inr ?_)))
    rw [transition_events_of_getLast hp]
    exact List.mem_append.mpr
      (Or.inr (extPowerConnected_mem_power_transition.mpr ⟨hne, ht⟩))

/-- `EXTERNAL_POWER_LOST` is emitted exactly when the previous
sample's `has_external_power` differs and the current one is falsy. -/
lemma extPowerLost_mem_detect_iff (data : SampleData)
    (history : List SampleData) :
    Event.externalPowerLost ∈ detect_critical_events data history ↔
      ∃ prev, history.getLast? = some prev ∧
        prev.has_external_power ≠ data.has_external_power ∧
          py_truthy data.has_external_power = false := by
  constructor
  · intro h
    simp only [detect_critical_events, List.mem_append] at h
    rcases h with (((h | h) | h) | h) | h
    · exact absurd (mem_power_loss_events h) (by simp)
    · rcases hl : history.getLast? with _ | prev
      · rw [transition_events_of_nil hl] at h; simp at h
      · rw [transition_events_of_getLast hl] at h
        rcases List.mem_append.mp h with h | h
        · rcases mem_charging_transition_events h with h' | h' <;> simp_all
        · exact ⟨prev, rfl, extPowerLost_mem_power_transition.mp h⟩
    · rcases mem_battery_level_events h with h' | h' <;> simp_all
    · rcases mem_voltage_level_events h with h' | h' <;> simp_all
    · rcases mem_discharge_rate_events h with ⟨c, h'⟩; simp_all
  · rintro ⟨prev, hp, hne, ht⟩
    simp only [detect_critical_events, List.mem_append]
    refine Or.inl (Or.inl (Or.inl (Or.inr ?_)))
    rw [transition_events_of_getLast hp]
    exact List.mem_append.mpr
      (Or.inr (extPowerLost_mem_power_transition.mpr ⟨hne, ht⟩))

/-- After the main loop's append-and-trim, the last history entry is
the sample that was just pushed. -/
lemma push_history_getLast (history : List SampleData) (data : SampleData) :
    (push_history history data).getLast? = some data := by
  simp only [push_history]
  split_ifs with hlen
  · rcases history with _ | ⟨a, t⟩
    · simp at hlen
    · simp only [List.cons_append, List.tail_cons]
      exact List.getLast?_concat t
  · exact List.getLast?_concat history

/-! ## Claims -/

/-- Claim C1, counterexample: with external power present, previous
stable value 50 and corrected reading 51.5 the stabilization returns
51.5, which is MORE than 1.0 above the previous stable value — the
pass-through branch accepts any reading up to 2.0 above the previous
value, so the claimed +1.0 bound is false. -/
theorem C1_counterexample :
    (stabilize true (some (103/2)) (some 50)).1 = some (103/2)
    ∧ 50 + 1 < (103/2 : ℚ) := by
  constructor
  · norm_num [stabilize]
  · norm_num

/-- Claim C1, amended: for every stabilization call with external
power present and an existing previous stable value, the returned
stable percentage is never more than 2.0 above that previous stable
value (the `> previous + 2` branch caps the step at +1.0, the
`< previous - 1` branch holds, and the pass-through branch admits at
most +2.0). -/
theorem C1_step_bound_amended (last battery s : ℚ)
    (h : (stabilize true (some battery) (some last)).1 = some s) :
    s ≤ last + 2 := by
  simp only [stabilize] at h
  split_ifs at h with h1 h2 <;>
    (rw [Option.some_inj] at h; linarith)

/-- Witness for C1's amended bound at previous 50, corrected 47. -/
theorem C1_witness : (50 : ℚ) ≤ 50 + 2 :=
  C1_step_bound_amended 50 47 50 (by norm_num [stabilize])

/-- Claim C2: with external power present and previous stable value
p, a corrected reading c yields p + 1.0 when c - p > 2.0, p when
c - p < -1.0, and c otherwise; in particular p = 50, c = 47 yields
50. -/
theorem C2_stabilize_case_analysis :
    (∀ last battery : ℚ,
        (stabilize true (some battery) (some last)).1 =
          some (if battery - last > 2 then last + 1
                else if battery - last < -1 then last
                else battery))
    ∧ (stabilize true (some 47) (some 50)).1 = some 50 := by
  constructor
  · intro last battery
    show some (if battery > last + 2 then last + 1
        else if battery < last - 1 then last else battery) = _
    congr 1
    split_ifs <;> first | rfl | linarith
  · norm_num [stabilize]

/-- Claim C3: the battery presence classifier reports no-battery
exactly when 4.19 ≤ v ≤ 4.21 and 36 ≤ s ≤ 43 (the no-battery
signature), or s < 0.1, or v < 2.5 (the floor condition); and
`detect_battery` applied to register words giving s = 38, v = 4.20
(SOC word 9728, VCELL word 53760) reports no battery. -/
theorem C3_classifier_thresholds :
    (∀ voltage percentage : ℚ,
        classify voltage percentage = false ↔
          ((4.19 ≤ voltage ∧ voltage ≤ 4.21 ∧ 36 ≤ percentage ∧ percentage ≤ 43)
            ∨ percentage < 0.1 ∨ voltage < 2.5))
    ∧ detect_battery (some 9728) (some 53760) = false := by
  constructor
  · intro voltage percentage
    unfold classify
    split_ifs with h1 h2
    · simp [h1]
    · simp [h1, h2]
    · simp [h1, h2]
  · norm_num [detect_battery, classify, Nat.shiftRight_eq_div_pow]

/-- Claim C4: when the historical method is the only sub-estimator
with a positive value h (every other entry absent or nonpositive),
the fused estimate is exactly h — the 0.5 weight cancels in the
weighted average over the single contributor. -/
theorem C4_fusion_single_historical (est : Estimates) (h : ℚ)
    (hh : est.historical = some h) (hpos : 0 < h)
    (hp : ∀ e, est.percentage_based = some e → e ≤ 0)
    (hv : ∀ e, est.voltage_based = some e → e ≤ 0)
    (hw : ∀ e, est.power_based = some e → e ≤ 0) :
    fuse est = some h := by
  unfold fuse
  rw [fuse_term_of_nonpos _ hp, fuse_term_of_nonpos _ hv,
    fuse_term_of_nonpos _ hw, hh]
  simp only [fuse_term]
  rw [if_pos (And.intro hpos.ne' hpos)]
  norm_num

/-- Witness for C4: an estimate set whose only entry is a historical
value of 3 hours fuses to exactly 3 hours. -/
theorem C4_witness : fuse ⟨none, none, none, some 3⟩ = some 3 :=
  C4_fusion_single_historical ⟨none, none, none, some 3⟩ 3 rfl (by norm_num)
    (fun e he => by simp at he) (fun e he => by simp at he)
    (fun e he => by simp at he)

/-- Claim C5, evaluation at the failing input: two estimation cycles
that agree on the initial battery read (3.8 V, 50 %), the power draw
(4 W) and the history window (ten samples draining 59 → 50), but
whose in-cycle `get_battery_data()` re-read differs (50 % vs 40 %),
produce historical estimates 1/18 h vs 1/24 h and hence different
estimate sets — the historical sub-estimator re-reads the hardware
mid-cycle instead of using the sample captured at the start. -/
theorem C5_historical_estimator_rereads_sensor :
    (calculate_runtime_estimates ⟨19/5, 50⟩ 4
        [59, 58, 57, 56, 55, 54, 53, 52, 51, 50]
        (some ⟨19/5, 50⟩)).historical = some (1/18)
    ∧ (calculate_runtime_estimates ⟨19/5, 50⟩ 4
        [59, 58, 57, 56, 55, 54, 53, 52, 51, 50]
        (some ⟨19/5, 40⟩)).historical = some (1/24)
    ∧ get_runtime_estimate (some ⟨19/5, 50⟩) 4
        [59, 58, 57, 56, 55, 54, 53, 52, 51, 50] (some ⟨19/5, 50⟩) ≠
      get_runtime_estimate (some ⟨19/5, 50⟩) 4
        [59, 58, 57, 56, 55, 54, 53, 52, 51, 50] (some ⟨19/5, 40⟩) := by
  have h1 : (calculate_runtime_estimates ⟨19/5, 50⟩ 4
      [59, 58, 57, 56, 55, 54, 53, 52, 51, 50] (some ⟨19/5, 50⟩)).historical
      = some (1/18) := by
    norm_num [calculate_runtime_estimates, calculate_historical_runtime,
      drain_rates, safe_discharge_limit]
    simp
  have h2 : (calculate_runtime_estimates ⟨19/5, 50⟩ 4
      [59, 58, 57, 56, 55, 54, 53, 52, 51, 50] (some ⟨19/5, 40⟩)).historical
      = some (1/24) := by
    norm_num [calculate_runtime_estimates, calculate_historical_runtime,
      drain_rates, safe_discharge_limit]
    simp
  refine ⟨h1, h2, ?_⟩
  intro h
  have h3 := congrArg (fun x => Option.map (fun p => p.1.historical) x) h
  simp only [get_runtime_estimate, Option.map_some'] at h3
  rw [h1, h2] at h3
  norm_num at h3

/-- Claim C6: the four transition events fire exactly on a transition
against `history[-1]` (so never on steady state), none of them fires
on an empty history, and an is_charging flip false → true across two
consecutive samples with external power steady yields exactly
`[CHARGING_STARTED]` once and nothing on the steady follow-up poll. -/
theorem C6_transition_events_only_on_transitions :
    (∀ (data : SampleData) (history : List SampleData),
        Event.chargingStarted ∈ detect_critical_events data history ↔
          ∃ prev, history.getLast? = some prev ∧
            prev.is_charging ≠ data.is_charging ∧
              py_truthy data.is_charging = true)
    ∧ (∀ (data : SampleData) (history : List SampleData),
        Event.chargingStopped ∈ detect_critical_events data history ↔
          ∃ prev, history.getLast? = some prev ∧
            prev.is_charging ≠ data.is_charging ∧
              py_truthy data.is_charging = false)
    ∧ (∀ (data : SampleData) (history : List SampleData),
        Event.externalPowerConnected ∈ detect_critical_events data history ↔
          ∃ prev, history.getLast? = some prev ∧
            prev.has_external_power ≠ data.has_external_power ∧
              py_truthy data.has_external_power = true)
    ∧ (∀ (data : SampleData) (history : List SampleData),
        Event.externalPowerLost ∈ detect_critical_events data history ↔
          ∃ prev, history.getLast? = some prev ∧
            prev.has_external_power ≠ data.has_external_power ∧
              py_truthy data.has_external_power = false)
    ∧ (∀ data : SampleData,
        Event.chargingStarted ∉ detect_critical_events data []
        ∧ Event.chargingStopped ∉ detect_critical_events data []
        ∧ Event.externalPowerConnected ∉ detect_critical_events data []
        ∧ Event.externalPowerLost ∉ detect_critical_events data [])
    ∧ detect_critical_events
        ⟨none, none, some true, some true, none⟩
        [⟨none, none, some false, some true, none⟩] = [Event.chargingStarted]
    ∧ Event.chargingStarted ∉ detect_critical_events
        ⟨none, none, some true, some true, none⟩
        [⟨none, none, some false, some true, none⟩,
          ⟨none, none, some true, some true, none⟩] := by
  refine ⟨chargingStarted_mem_detect_iff, chargingStopped_mem_detect_iff,
    extPowerConnected_mem_detect_iff, extPowerLost_mem_detect_iff,
    ?_, ?_, ?_⟩
  · intro data
    refine ⟨?_, ?_, ?_, ?_⟩
    · rw [chargingStarted_mem_detect_iff]; rintro ⟨prev, hp, _⟩; simp at hp
    · rw [chargingStopped_mem_detect_iff]; rintro ⟨prev, hp, _⟩; simp at hp
    · rw [extPowerConnected_mem_detect_iff]; rintro ⟨prev, hp, _⟩; simp at hp
    · rw [extPowerLost_mem_detect_iff]; rintro ⟨prev, hp, _⟩; simp at hp
  · norm_num [detect_critical_events, power_loss_events, transition_events,
      charging_transition_events, power_transition_events,
      battery_level_events, voltage_level_events, discharge_rate_events,
      py_truthy]
  · rw [chargingStarted_mem_detect_iff]
    rintro ⟨prev, hp, hne, _⟩
    simp at hp
    rw [hp] at hne
    exact hne rfl

/-- Claim C7: the calibration correction maps [0, 100] into [0, 100];
raw 75 gives exactly 99.525 with the clamp not triggered
(75 × 1.327 < 100), and raw 90 is clamped to 100 since
90 × 1.327 = 119.43. -/
theorem C7_correction_bounds :
    (∀ raw : ℚ, 0 ≤ raw → raw ≤ 100 →
        0 ≤ correct_percentage raw ∧ correct_percentage raw ≤ 100)
    ∧ correct_percentage 75 = 99.525
    ∧ (75 : ℚ) * 1.327 < 100
    ∧ correct_percentage 90 = 100
    ∧ (90 : ℚ) * 1.327 = 119.43 := by
  refine ⟨?_, by norm_num [correct_percentage], by norm_num,
    by norm_num [correct_percentage], by norm_num⟩
  intro raw h0 h100
  unfold correct_percentage
  exact ⟨le_min (by norm_num) (mul_nonneg h0 (by norm_num)), min_le_left _ _⟩

/-- Witness for C7's bound at raw = 50. -/
theorem C7_witness :
    (0 : ℚ) ≤ 50 ∧ (50 : ℚ) ≤ 100
    ∧ 0 ≤ correct_percentage 50 ∧ correct_percentage 50 ≤ 100 := by
  have h := C7_correction_bounds.1 50 (by norm_num) (by norm_num)
  exact ⟨by norm_num, by norm_num, h.1, h.2⟩

/-- Claim C8: when the SOC or VCELL register read fails
(`read_word_swapped` returns `None`), `detect_battery` reports
`has_battery = false`; the `None` branch never converts the missing
reading into a number. -/
theorem C8_read_failure_reports_no_battery (soc vcell : Option ℕ)
    (h : soc = none ∨ vcell = none) : detect_battery soc vcell = false := by
  rcases h with rfl | rfl
  · cases vcell <;> rfl
  · cases soc <;> rfl

/-- Witness for C8: a failed SOC read with a good VCELL word. -/
theorem C8_witness : detect_battery none (some 53760) = false :=
  C8_read_failure_reports_no_battery none (some 53760) (Or.inl rfl)

/-- Claim C9, counterexample: at exactly 2 hours the zero-minutes
branch renders `"2 hours"`, not the `"{h}h {m}m"` shape with the
minutes part omitted (`"2h"`) that the claim describes. -/
theorem C9_counterexample :
    format_runtime_display (some 2) = "2 hours" ∧ "2 hours" ≠ "2h" := by
  constructor
  · norm_num [format_runtime_display, pyInt]
    rfl
  · decide

/-- Claim C9, amended: `format_runtime_display` returns "Unable to
estimate" for `None` or ≤ 0 hours; "{minutes} minutes" (truncated)
below 1 hour; "{h}h {m}m" for 1–24 hours when the truncated minutes
part is positive and "{h} hours" when it is zero; and
"{days} days {hours} hours" at and above 24 hours; in particular
0.3125 hours formats as "18 minutes". -/
theorem C9_format_buckets_amended :
    format_runtime_display none = "Unable to estimate"
    ∧ (∀ h : ℚ, h ≤ 0 → format_runtime_display (some h) = "Unable to estimate")
    ∧ (∀ h : ℚ, 0 < h → h < 1 →
        format_runtime_display (some h) = toString ⌊h * 60⌋ ++ " minutes")
    ∧ (∀ h : ℚ, 1 ≤ h → h < 24 → 0 < ⌊(h - (⌊h⌋ : ℚ)) * 60⌋ →
        format_runtime_display (some h) =
          toString ⌊h⌋ ++ "h " ++ toString ⌊(h - (⌊h⌋ : ℚ)) * 60⌋ ++ "m")
    ∧ (∀ h : ℚ, 1 ≤ h → h < 24 → ⌊(h - (⌊h⌋ : ℚ)) * 60⌋ = 0 →
        format_runtime_display (some h) = toString ⌊h⌋ ++ " hours")
    ∧ (∀ h : ℚ, 24 ≤ h →
        format_runtime_display (some h) =
          toString ⌊h / 24⌋ ++ " days "
            ++ toString ⌊h - 24 * (⌊h / 24⌋ : ℚ)⌋ ++ " hours")
    ∧ format_runtime_display (some 0.3125) = "18 minutes" := by
  refine ⟨rfl, ?_, ?_, ?_, ?_, ?_, ?_⟩
  · intro h hle
    simp only [format_runtime_display]
    rw [if_pos (Or.inr hle)]
  · intro h h0 h1
    simp only [format_runtime_display]
    have hc : ¬(h = 0 ∨ h ≤ 0) := by rintro (rfl | hle) <;> linarith
    rw [if_neg hc, if_pos h1,
      pyInt_eq_floor (mul_nonneg h0.le (by norm_num))]
  · intro h h1 h24 hm
    simp only [format_runtime_display]
    have hc : ¬(h = 0 ∨ h ≤ 0) := by rintro (rfl | hle) <;> linarith
    rw [if_neg hc, if_neg (not_lt.mpr h1), if_pos h24,
      pyInt_eq_floor (by linarith : (0 : ℚ) ≤ h),
      pyInt_eq_floor
        (mul_nonneg (by linarith [Int.floor_le h]) (by norm_num)),
      if_pos hm]
  · intro h h1 h24 hm
    simp only [format_runtime_display]
    have hc : ¬(h = 0 ∨ h ≤ 0) := by rintro (rfl | hle) <;> linarith
    rw [if_neg hc, if_neg (not_lt.mpr h1), if_pos h24,
      pyInt_eq_floor (by linarith : (0 : ℚ) ≤ h),
      pyInt_eq_floor
        (mul_nonneg (by linarith [Int.floor_le h]) (by norm_num)),
      if_neg (by rw [hm]; exact lt_irrefl 0)]
  · intro h h24
    simp only [format_runtime_display, pyMod]
    have hc : ¬(h = 0 ∨ h ≤ 0) := by rintro (rfl | hle) <;> linarith
    have hfl : (⌊h / 24⌋ : ℚ) ≤ h / 24 := Int.floor_le (h / 24)
    rw [if_neg hc, if_neg (by push_neg; linarith : ¬h < 1),
      if_neg (by push_neg; linarith : ¬h < 24),
      pyInt_eq_floor (by positivity : (0 : ℚ) ≤ h / 24),
      pyInt_eq_floor (by linarith : (0 : ℚ) ≤ h - 24 * (⌊h / 24⌋ : ℚ))]
  · norm_num [format_runtime_display, pyInt]
    rfl

/-- Witness for C9's amended buckets at 2.5 hours ("2h 30m"). -/
theorem C9_witness :
    format_runtime_display (some (5/2)) =
      toString ⌊(5/2 : ℚ)⌋ ++ "h "
        ++ toString ⌊((5/2 : ℚ) - (⌊(5/2 : ℚ)⌋ : ℚ)) * 60⌋ ++ "m" :=
  C9_format_buckets_amended.2.2.2.1 (5/2) (by norm_num) (by norm_num)
    (by norm_num)

/-- Claim C10: the main polling loop appends the current sample to
the history before calling `detect_critical_events`, so `history[-1]`
is the current sample itself and the four transition events can never
be emitted by the loop. -/
theorem C10_main_loop_never_emits_transition_events
    (data : SampleData) (history : List SampleData) :
    (push_history history data).getLast? = some data
    ∧ Event.chargingStarted ∉ detect_critical_events data (push_history history data)
    ∧ Event.chargingStopped ∉ detect_critical_events data (push_history history data)
    ∧ Event.externalPowerConnected ∉
        detect_critical_events data (push_history history data)
    ∧ Event.externalPowerLost ∉
        detect_critical_events data (push_history history data) := by
  refine ⟨push_history_getLast history data, ?_, ?_, ?_, ?_⟩
  · rw [chargingStarted_mem_detect_iff]
    rintro ⟨prev, hp, hne, _⟩
    rw [push_history_getLast history data] at hp
    cases hp
    exact hne rfl
  · rw [chargingStopped_mem_detect_iff]
    rintro ⟨prev, hp, hne, _⟩
    rw [push_history_getLast history data] at hp
    cases hp
    exact hne rfl
  · rw [extPowerConnected_mem_detect_iff]
    rintro ⟨prev, hp, hne, _⟩
    rw [push_history_getLast history data] at hp
    cases hp
    exact hne rfl
  · rw [extPowerLost_mem_detect_iff]
    rintro ⟨prev, hp, hne, _⟩
    rw [push_history_getLast history data] at hp
    cases hp
    exact hne rfl

end PowerMonitoring
